import Mathlib

/-!
Shallow embedding of src/bot.py, a Telegram reminder / auto-reply bot.

Modelling conventions:
* Python dicts keyed by user id (user_reminders, user_auto_reply, the per-user
  conversation state of the ConversationHandler and context.user_data) are
  total functions from Nat with empty / none default; every observation the
  source makes on these dicts factors through this view.
* Wall-clock instants are Nat seconds.  A handler that calls datetime.now()
  twice receives the two readings as explicit arguments now1 and now2, in
  source order.
* APScheduler is the pending-job list jobs: add_job appends, a DateTrigger
  job is one-shot, so firing removes it from the list; remove_job removes by
  id, and the prefix scan of cancel_reminders is a filter over the list.
* The outbound Telegram send may fail; the fire callback receives the
  outcome as a Bool (true = delivered, false = the awaited send raised).
* Replies sent back to the chat are abstracted into the Msg inductive; the
  uniform random canned auto-reply is Msg.autoReplyRandom.
-/

namespace Bot

/-- Decimal digit character for a digit value, as used by python's decimal
rendering of integers. -/
def digitChar (d : Nat) : Char := Char.ofNat (48 + d)

/-- Fuel-based most-significant-digit-first decimal rendering of a natural
number; fuel at least n suffices. -/
def pyNatStrAux : Nat → Nat → List Char
  | 0, _ => []
  | fuel + 1, n => if n = 0 then [] else pyNatStrAux fuel (n / 10) ++ [digitChar (n % 10)]

/-- Model of python str(n) for a nonnegative integer n, as a char list. -/
def pyNatStr (n : Nat) : List Char := if n = 0 then ['0'] else pyNatStrAux n n

/-- ASCII model of python str.lower(); the delay tokens involved are ASCII. -/
def pyLower (s : String) : String := String.mk (s.data.map Char.toLower)

/-- Model of python ' '.join(l). -/
def joinSpace : List String → String
  | [] => ""
  | [x] => x
  | x :: y :: xs => x ++ " " ++ joinSpace (y :: xs)

/-- The REMINDER_TIMES dict of the source: delay-class token to duration in
seconds (timedelta(minutes=5) and so on). -/
def REMINDER_TIMES (s : String) : Option Nat :=
  if s = "5min" then some (5 * 60)
  else if s = "10min" then some (10 * 60)
  else if s = "30min" then some (30 * 60)
  else if s = "1h" then some (60 * 60)
  else none

/-- Duration in seconds attached to a delay-class token; tokens outside the
dict would raise a KeyError in python, every use below is guarded. -/
def durationOf (s : String) : Nat := (REMINDER_TIMES s).getD 0

/-- The short-alias list checked by set_reminder. -/
def aliasTokens : List String := ["5m", "10m", "30m", "1h"]

/-- The time_mapping dict of set_reminder. -/
def time_mapping (s : String) : Option String :=
  if s = "5m" then some "5min"
  else if s = "10m" then some "10min"
  else if s = "30m" then some "30min"
  else if s = "1h" then some "1h"
  else none

/-- One stored reminder: the dict appended to user_reminders[user_id]. -/
structure Reminder where
  text : String
  time : Nat
  set_at : Nat
  duration : String
deriving DecidableEq, Repr

/-- One pending APScheduler job as created by scheduler.add_job. -/
structure Job where
  id : List Char
  user_id : Nat
  text : String
  run_date : Nat
deriving DecidableEq, Repr

/-- The job id string reminder_<user_id>_<timestamp> built by the source. -/
def jobId (user_id t : Nat) : List Char :=
  "reminder_".toList ++ pyNatStr user_id ++ '_' :: pyNatStr t

/-- The prefix reminder_<user_id>_ scanned for by cancel_reminders. -/
def jobPrefix (user_id : Nat) : List Char :=
  "reminder_".toList ++ pyNatStr user_id ++ ['_']

/-- Conversation state of the reminder ConversationHandler for one user:
idle (no conversation), SETTING_REMINDER_TIME, SETTING_REMINDER_TEXT. -/
inductive ConvState
  | idle
  | settingTime
  | settingText
deriving DecidableEq, Repr

/-- Replies the bot can send back to the chat, abstracted by content. -/
inductive Msg
  | welcome
  | helpMsg
  | invalidTimeFormat
  | chooseTime
  | chooseValidTime
  | sendText
  | somethingWrong
  | reminderSet (duration text : String)
  | reminderFire (text : String)
  | noActiveReminders
  | listText (entries : List (String × Nat))
  | allCancelled (n : Nat)
  | noneToCancel
  | autoReplySet (text : String)
  | autoReplyUsage
  | autoReplyDisabled
  | autoReplyNotEnabled
  | autoReplyCustom (text : String)
  | autoReplyRandom
  | cancelled
deriving DecidableEq, Repr

/-- The whole mutable process state of the bot. -/
structure BotState where
  user_reminders : Nat → List Reminder
  user_auto_reply : Nat → Option String
  jobs : List Job
  conv : Nat → ConvState
  reminder_time : Nat → Option String

/-- The state at process start: every dict empty, no jobs, no conversation. -/
def initState : BotState where
  user_reminders := fun _ => []
  user_auto_reply := fun _ => none
  jobs := []
  conv := fun _ => ConvState.idle
  reminder_time := fun _ => none

/-- Handler set_reminder for the /remind command.  With at least two
arguments it validates the (lowercased) first token, normalizes it through
time_mapping, appends a reminder dict and adds a job; otherwise it shows the
delay keyboard and enters SETTING_REMINDER_TIME. -/
def set_reminder (user_id : Nat) (args : List String) (now1 now2 : Nat)
    (st : BotState) : BotState × List Msg :=
  if 2 ≤ args.length then
    let time_arg := pyLower (args.headD "")
    if REMINDER_TIMES time_arg = none ∧ time_arg ∉ aliasTokens then
      (st, [Msg.invalidTimeFormat])
    else
      let reminder_text := joinSpace args.tail
      let time_choice := (time_mapping time_arg).getD time_arg
      let reminder_time := now1 + durationOf time_choice
      let r : Reminder := ⟨reminder_text, reminder_time, now2, time_choice⟩
      let j : Job := ⟨jobId user_id reminder_time, user_id, reminder_text, reminder_time⟩
      ({ st with
          user_reminders := Function.update st.user_reminders user_id
            (st.user_reminders user_id ++ [r]),
          jobs := st.jobs ++ [j] },
        [Msg.reminderSet time_choice reminder_text])
  else
    ({ st with conv := Function.update st.conv user_id ConvState.settingTime },
      [Msg.chooseTime])

/-- Handler set_reminder_time for the SETTING_REMINDER_TIME state: store the
chosen token in user_data and move to SETTING_REMINDER_TEXT, else re-prompt. -/
def set_reminder_time (user_id : Nat) (text : String) (st : BotState) :
    BotState × List Msg :=
  if REMINDER_TIMES text = none then
    (st, [Msg.chooseValidTime])
  else
    ({ st with
        reminder_time := Function.update st.reminder_time user_id (some text),
        conv := Function.update st.conv user_id ConvState.settingText },
      [Msg.sendText])

/-- Handler set_reminder_text for the SETTING_REMINDER_TEXT state: read the
stored token from user_data (python falsy check covers none and ""), append
the reminder, add the job, end the conversation. -/
def set_reminder_text (user_id : Nat) (text : String) (now1 now2 : Nat)
    (st : BotState) : BotState × List Msg :=
  let time_choice? := st.reminder_time user_id
  if time_choice? = none ∨ time_choice? = some "" then
    ({ st with conv := Function.update st.conv user_id ConvState.idle },
      [Msg.somethingWrong])
  else
    let time_choice := time_choice?.getD ""
    let reminder_time := now1 + durationOf time_choice
    let r : Reminder := ⟨text, reminder_time, now2, time_choice⟩
    let j : Job := ⟨jobId user_id reminder_time, user_id, text, reminder_time⟩
    ({ st with
        user_reminders := Function.update st.user_reminders user_id
          (st.user_reminders user_id ++ [r]),
        jobs := st.jobs ++ [j],
        conv := Function.update st.conv user_id ConvState.idle },
      [Msg.reminderSet time_choice text])

/-- The fire callback send_reminder.  On success the entry is removed from
the store by text match; when the awaited send raises, the except branch only
logs and the removal code never runs. -/
def send_reminder (success : Bool) (user_id : Nat) (reminder_text : String)
    (st : BotState) : BotState × List Msg :=
  if success then
    ({ st with
        user_reminders := Function.update st.user_reminders user_id
          ((st.user_reminders user_id).filter (fun r => r.text != reminder_text)) },
      [Msg.reminderFire reminder_text])
  else
    (st, [])

/-- A DateTrigger job firing: the scheduler consumes the one-shot job, then
runs the send_reminder callback with the given notifier outcome. -/
def fire (j : Job) (success : Bool) (st : BotState) : BotState × List Msg :=
  send_reminder success j.user_id j.text { st with jobs := st.jobs.erase j }

/-- Handler cancel_reminders for the /cancel command outside a conversation:
remove every job whose id starts with the user's prefix, clear the user's
list and report the count; with no stored reminders do nothing.  The Nat
component is the count displayed (0 when nothing was cancelled). -/
def cancel_reminders (user_id : Nat) (st : BotState) : Nat × BotState × List Msg :=
  if st.user_reminders user_id = [] then
    (0, st, [Msg.noneToCancel])
  else
    let count := (st.user_reminders user_id).length
    (count,
      { st with
          jobs := st.jobs.filter (fun j => !((jobPrefix user_id).isPrefixOf j.id)),
          user_reminders := Function.update st.user_reminders user_id [] },
      [Msg.allCancelled count])

/-- Handler set_auto_reply for the /autoreply command. -/
def set_auto_reply (user_id : Nat) (args : List String) (st : BotState) :
    BotState × List Msg :=
  if 0 < args.length then
    let t := joinSpace args
    ({ st with user_auto_reply := Function.update st.user_auto_reply user_id (some t) },
      [Msg.autoReplySet t])
  else
    (st, [Msg.autoReplyUsage])

/-- Handler disable_auto_reply for the /disableautoreply command. -/
def disable_auto_reply (user_id : Nat) (st : BotState) : BotState × List Msg :=
  match st.user_auto_reply user_id with
  | some _ =>
      ({ st with user_auto_reply := Function.update st.user_auto_reply user_id none },
        [Msg.autoReplyDisabled])
  | none => (st, [Msg.autoReplyNotEnabled])

/-- Handler handle_message for plain text: custom auto-reply if configured,
otherwise one uniformly random canned response. -/
def handle_message (user_id : Nat) (st : BotState) : BotState × List Msg :=
  match st.user_auto_reply user_id with
  | some t => (st, [Msg.autoReplyCustom t])
  | none => (st, [Msg.autoReplyRandom])

/-- Handler list_reminders for the /list command; minutes left are clamped
at 0 exactly as max(0, ...) does (Nat subtraction truncates). -/
def list_reminders (user_id : Nat) (now : Nat) (st : BotState) :
    BotState × List Msg :=
  if st.user_reminders user_id = [] then
    (st, [Msg.noActiveReminders])
  else
    (st, [Msg.listText ((st.user_reminders user_id).map
      (fun r => (r.text, (r.time - now) / 60)))])

/-- The conversation fallback handler cancel: acknowledge and end the
conversation.  It touches neither the store nor user_data. -/
def cancel (user_id : Nat) (st : BotState) : BotState × List Msg :=
  ({ st with conv := Function.update st.conv user_id ConvState.idle },
    [Msg.cancelled])

/-- The regex filter of the SETTING_REMINDER_TIME state. -/
def delayRegex (text : String) : Bool :=
  text = "5min" || text = "10min" || text = "30min" || text = "1h"

/-- One inbound update, already tokenized the way python-telegram-bot hands
it to handlers.  Telegram text messages are the textMsg case; the command
cases carry context.args. -/
inductive Event
  | cmdStart
  | cmdHelp
  | cmdRemind (args : List String)
  | cmdList
  | cmdCancel
  | cmdAutoreply (args : List String)
  | cmdDisableAutoreply
  | textMsg (text : String)

/-- The dispatcher of main(): handlers in registration order, with the
ConversationHandler's routing made explicit.  While a conversation is active
only its state handlers and the cancel fallback can claim the update; an
unclaimed update falls through to the later handlers, so non-matching text
during a conversation reaches handle_message, and the empty text matches no
handler at all (filters.TEXT requires non-empty text). -/
def dispatch (user_id : Nat) (ev : Event) (now1 now2 : Nat) (st : BotState) :
    BotState × List Msg :=
  match ev with
  | Event.cmdStart => (st, [Msg.welcome])
  | Event.cmdHelp => (st, [Msg.helpMsg])
  | Event.cmdRemind args =>
      match st.conv user_id with
      | ConvState.idle => set_reminder user_id args now1 now2 st
      | _ => (st, [])
  | Event.cmdList => list_reminders user_id now1 st
  | Event.cmdCancel =>
      match st.conv user_id with
      | ConvState.idle =>
          ((cancel_reminders user_id st).2.1, (cancel_reminders user_id st).2.2)
      | _ => cancel user_id st
  | Event.cmdAutoreply args => set_auto_reply user_id args st
  | Event.cmdDisableAutoreply => disable_auto_reply user_id st
  | Event.textMsg text =>
      match st.conv user_id with
      | ConvState.settingTime =>
          if delayRegex text then set_reminder_time user_id text st
          else if text ≠ "" then handle_message user_id st
          else (st, [])
      | ConvState.settingText =>
          if text ≠ "" then set_reminder_text user_id text now1 now2 st
          else (st, [])
      | ConvState.idle =>
          if text ≠ "" then handle_message user_id st
          else (st, [])

/-- Telegram tokenizes command arguments by splitting on whitespace, so no
argument is ever the empty string. -/
def wfEvent : Event → Bool
  | Event.cmdRemind args => args.all (fun a => a != "")
  | Event.cmdAutoreply args => args.all (fun a => a != "")
  | _ => true

/-- States the running process can reach: dispatched updates with
well-formed arguments, and firings of pending jobs with either notifier
outcome. -/
inductive Reachable : BotState → Prop where
  | init : Reachable initState
  | step (st : BotState) (user_id : Nat) (ev : Event) (now1 now2 : Nat) :
      Reachable st → wfEvent ev = true →
      Reachable (dispatch user_id ev now1 now2 st).1
  | fireStep (st : BotState) (j : Job) (success : Bool) :
      Reachable st → j ∈ st.jobs →
      Reachable (fire j success st).1

/-! Helper lemmas about the decimal rendering used in job ids. -/

lemma digitChar_toNat (d : Nat) (hd : d < 10) : (digitChar d).toNat = 48 + d := by
  interval_cases d <;> decide

lemma digitChar_ne_underscore (d : Nat) (hd : d < 10) : (digitChar d != '_') = true := by
  interval_cases d <;> decide

/-- Decimal value of a digit string; inverse of pyNatStr. -/
def parseDec (l : List Char) : Nat := l.foldl (fun acc c => acc * 10 + (c.toNat - 48)) 0

lemma parseDec_aux : ∀ fuel n acc : Nat, n ≤ fuel →
    (pyNatStrAux fuel n).foldl (fun acc c => acc * 10 + (c.toNat - 48)) acc
      = acc * 10 ^ (pyNatStrAux fuel n).length + n := by
  intro fuel
  induction fuel with
  | zero =>
      intro n acc h
      interval_cases n
      simp [pyNatStrAux]
  | succ fuel ih =>
      intro n acc h
      by_cases hn : n = 0
      · subst hn; simp [pyNatStrAux]
      · have hdiv : n / 10 ≤ fuel := by
          have := Nat.div_lt_self (Nat.pos_of_ne_zero hn) (by norm_num : 1 < 10)
          omega
        simp only [pyNatStrAux, if_neg hn, List.foldl_append, List.length_append,
          List.foldl_cons, List.foldl_nil, List.length_cons, List.length_nil]
        rw [ih (n / 10) acc hdiv,
          digitChar_toNat (n % 10) (Nat.mod_lt n (by norm_num))]
        have hmod : 10 * (n / 10) + n % 10 = n := Nat.div_add_mod n 10
        rw [Nat.zero_add, pow_succ, ← Nat.mul_assoc]
        omega

lemma parseDec_pyNatStr (n : Nat) : parseDec (pyNatStr n) = n := by
  by_cases hn : n = 0
  · subst hn; decide
  · unfold pyNatStr parseDec
    rw [if_neg hn, parseDec_aux n n 0 le_rfl]
    simp

lemma pyNatStr_inj {a b : Nat} (h : pyNatStr a = pyNatStr b) : a = b := by
  have ha := parseDec_pyNatStr a
  rw [h, parseDec_pyNatStr] at ha
  omega

lemma pyNatStrAux_mem_digit : ∀ fuel n : Nat, ∀ c ∈ pyNatStrAux fuel n,
    ∃ d, d < 10 ∧ c = digitChar d := by
  intro fuel
  induction fuel with
  | zero => intro n c hc; simp [pyNatStrAux] at hc
  | succ fuel ih =>
      intro n c hc
      by_cases hn : n = 0
      · subst hn; simp [pyNatStrAux] at hc
      · simp only [pyNatStrAux, if_neg hn, List.mem_append, List.mem_singleton] at hc
        rcases hc with hc | hc
        · exact ih _ c hc
        · exact ⟨n % 10, Nat.mod_lt n (by norm_num), hc⟩

lemma pyNatStr_ne_underscore (n : Nat) : ∀ c ∈ pyNatStr n, (c != '_') = true := by
  intro c hc
  unfold pyNatStr at hc
  by_cases hn : n = 0
  · rw [if_pos hn] at hc
    simp at hc
    subst hc
    decide
  · rw [if_neg hn] at hc
    obtain ⟨d, hd, rfl⟩ := pyNatStrAux_mem_digit n n c hc
    exact digitChar_ne_underscore d hd

lemma takeWhile_append_stop (p : Char → Bool) :
    ∀ (A : List Char) (x : Char) (t : List Char),
      (∀ c ∈ A, p c = true) → p x = false →
      (A ++ x :: t).takeWhile p = A := by
  intro A
  induction A with
  | nil =>
      intro x t _ hx
      simp [List.takeWhile_cons, hx]
  | cons a A ih =>
      intro x t hA hx
      have ha : p a = true := hA a (List.mem_cons_self a A)
      simp only [List.cons_append, List.takeWhile_cons, ha, if_true]
      rw [ih x t (fun c hc => hA c (List.mem_cons_of_mem a hc)) hx]

lemma jobPrefix_not_prefix_other {a b : Nat} (hab : a ≠ b) (tail : List Char) :
    (jobPrefix a).isPrefixOf ("reminder_".toList ++ pyNatStr b ++ '_' :: tail)
      = false := by
  rw [Bool.eq_false_iff]
  intro h
  rw [List.isPrefixOf_iff_prefix] at h
  obtain ⟨u, hu⟩ := h
  apply hab
  apply pyNatStr_inj
  have hu' : "reminder_".toList ++ (pyNatStr a ++ '_' :: u)
      = "reminder_".toList ++ (pyNatStr b ++ '_' :: tail) := by
    simpa [jobPrefix, List.append_assoc] using hu
  have h2 := List.append_cancel_left hu'
  have hA := takeWhile_append_stop (fun c => c != '_') (pyNatStr a) '_' u
    (pyNatStr_ne_underscore a) (by decide)
  have hB := takeWhile_append_stop (fun c => c != '_') (pyNatStr b) '_' tail
    (pyNatStr_ne_underscore b) (by decide)
  rw [← hA, ← hB, h2]

lemma jobPrefix_not_prefix_jobId {a b : Nat} (hab : a ≠ b) (t : Nat) :
    (jobPrefix a).isPrefixOf (jobId b t) = false :=
  jobPrefix_not_prefix_other hab (pyNatStr t)

lemma jobPrefix_isPrefixOf_jobId (u t : Nat) :
    (jobPrefix u).isPrefixOf (jobId u t) = true := by
  rw [List.isPrefixOf_iff_prefix]
  exact ⟨pyNatStr t, by simp [jobPrefix, jobId, List.append_assoc]⟩

lemma joinSpace_ne_empty : ∀ l : List String, l ≠ [] → (∀ a ∈ l, a ≠ "") →
    joinSpace l ≠ "" := by
  intro l
  match l with
  | [] => intro h _; exact absurd rfl h
  | [x] => intro _ h; exact h x (by simp)
  | x :: y :: xs =>
      intro _ _ hc
      have hlen := congrArg String.length hc
      rw [show joinSpace (x :: y :: xs) = x ++ " " ++ joinSpace (y :: xs) from rfl] at hlen
      simp only [String.length_append] at hlen
      have h1 : (" " : String).length = 1 := rfl
      have h0 : ("" : String).length = 0 := rfl
      omega

/-! Frame and membership lemmas about the individual handlers. -/

/-- Well-formedness of a pending job: its id is the one the source builds. -/
def JobWf (j : Job) : Prop := j.id = jobId j.user_id j.run_date

lemma filter_erase_of_bne {b : Nat} :
    ∀ (l : List Job) (x : Job), (x.user_id == b) = false →
      (l.erase x).filter (fun j => j.user_id == b)
        = l.filter (fun j => j.user_id == b) := by
  intro l
  induction l with
  | nil => intro x _; rfl
  | cons y t ih =>
      intro x hx
      rw [List.erase_cons]
      by_cases hyx : y = x
      · subst hyx
        rw [if_pos (by simp)]
        simp [List.filter_cons, hx]
      · rw [if_neg (by simp [hyx])]
        simp only [List.filter_cons]
        rw [ih x hx]

lemma filter_prefix_user {a b : Nat} (hab : a ≠ b) :
    ∀ l : List Job, (∀ j ∈ l, JobWf j) →
      ((l.filter (fun j => !((jobPrefix a).isPrefixOf j.id))).filter
          (fun j => j.user_id == b))
        = l.filter (fun j => j.user_id == b) := by
  intro l hwf
  rw [List.filter_filter]
  apply List.filter_congr
  intro j hj
  by_cases hjb : j.user_id = b
  · have hpref : ((jobPrefix a).isPrefixOf j.id) = false := by
      rw [hwf j hj, hjb]
      exact jobPrefix_not_prefix_jobId hab j.run_date
    simp [hpref, hjb]
  · simp [hjb]

lemma mem_update_append {f : Nat → List Reminder} {uid u : Nat} {r x : Reminder}
    (h : r ∈ Function.update f uid (f uid ++ [x]) u) : r ∈ f u ∨ r = x := by
  by_cases hu : u = uid
  · subst hu
    rw [Function.update_same] at h
    rcases List.mem_append.mp h with h | h
    · exact Or.inl h
    · simp at h
      exact Or.inr h
  · rw [Function.update_noteq hu] at h
    exact Or.inl h

lemma mem_reminders_set_reminder {uid : Nat} {args : List String} {n1 n2 : Nat}
    {st : BotState} {u : Nat} {r : Reminder}
    (h : r ∈ (set_reminder uid args n1 n2 st).1.user_reminders u) :
    r ∈ st.user_reminders u ∨ (2 ≤ args.length ∧ r.text = joinSpace args.tail) := by
  unfold set_reminder at h
  split at h
  · simp only at h
    split at h
    · exact Or.inl h
    · rcases mem_update_append h with h | h
      · exact Or.inl h
      · subst h
        exact Or.inr ⟨by assumption, rfl⟩
  · exact Or.inl h

lemma mem_reminders_set_reminder_text {uid : Nat} {text : String} {n1 n2 : Nat}
    {st : BotState} {u : Nat} {r : Reminder}
    (h : r ∈ (set_reminder_text uid text n1 n2 st).1.user_reminders u) :
    r ∈ st.user_reminders u ∨ r.text = text := by
  unfold set_reminder_text at h
  simp only at h
  split at h
  · exact Or.inl h
  · rcases mem_update_append h with h | h
    · exact Or.inl h
    · subst h
      exact Or.inr rfl

lemma mem_reminders_send_reminder {success : Bool} {uid : Nat} {tx : String}
    {st : BotState} {u : Nat} {r : Reminder}
    (h : r ∈ (send_reminder success uid tx st).1.user_reminders u) :
    r ∈ st.user_reminders u := by
  unfold send_reminder at h
  split at h
  · by_cases hu : u = uid
    · subst hu
      simp only [Function.update_same] at h
      exact List.mem_of_mem_filter h
    · simpa only [Function.update_noteq hu] using h
  · exact h

lemma mem_reminders_cancel_reminders {uid : Nat} {st : BotState} {u : Nat}
    {r : Reminder} (h : r ∈ (cancel_reminders uid st).2.1.user_reminders u) :
    r ∈ st.user_reminders u := by
  unfold cancel_reminders at h
  simp only at h
  split at h
  · exact h
  · by_cases hu : u = uid
    · subst hu
      simp only [Function.update_same] at h
      simp at h
    · simpa only [Function.update_noteq hu] using h

lemma mem_jobs_set_reminder {uid : Nat} {args : List String} {n1 n2 : Nat}
    {st : BotState} {j : Job}
    (h : j ∈ (set_reminder uid args n1 n2 st).1.jobs) :
    j ∈ st.jobs ∨ JobWf j := by
  unfold set_reminder at h
  split at h
  · simp only at h
    split at h
    · exact Or.inl h
    · rcases List.mem_append.mp h with h | h
      · exact Or.inl h
      · simp at h
        subst h
        exact Or.inr rfl
  · exact Or.inl h

lemma mem_jobs_set_reminder_text {uid : Nat} {text : String} {n1 n2 : Nat}
    {st : BotState} {j : Job}
    (h : j ∈ (set_reminder_text uid text n1 n2 st).1.jobs) :
    j ∈ st.jobs ∨ JobWf j := by
  unfold set_reminder_text at h
  simp only at h
  split at h
  · exact Or.inl h
  · rcases List.mem_append.mp h with h | h
    · exact Or.inl h
    · simp at h
      subst h
      exact Or.inr rfl

lemma mem_jobs_cancel_reminders {uid : Nat} {st : BotState} {j : Job}
    (h : j ∈ (cancel_reminders uid st).2.1.jobs) : j ∈ st.jobs := by
  unfold cancel_reminders at h
  simp only at h
  split at h
  · exact h
  · exact List.mem_of_mem_filter h

lemma mem_jobs_fire {j0 : Job} {success : Bool} {st : BotState} {j : Job}
    (h : j ∈ (fire j0 success st).1.jobs) : j ∈ st.jobs := by
  unfold fire send_reminder at h
  split at h <;> exact List.mem_of_mem_erase h

lemma list_reminders_fst (uid now : Nat) (st : BotState) :
    (list_reminders uid now st).1 = st := by
  unfold list_reminders
  split <;> rfl

lemma handle_message_fst (uid : Nat) (st : BotState) :
    (handle_message uid st).1 = st := by
  unfold handle_message
  split <;> rfl

lemma set_reminder_time_reminders (uid : Nat) (text : String) (st : BotState) :
    (set_reminder_time uid text st).1.user_reminders = st.user_reminders := by
  unfold set_reminder_time
  split <;> rfl

lemma set_reminder_time_jobs (uid : Nat) (text : String) (st : BotState) :
    (set_reminder_time uid text st).1.jobs = st.jobs := by
  unfold set_reminder_time
  split <;> rfl

lemma set_auto_reply_reminders (uid : Nat) (args : List String) (st : BotState) :
    (set_auto_reply uid args st).1.user_reminders = st.user_reminders := by
  unfold set_auto_reply
  split <;> rfl

lemma set_auto_reply_jobs (uid : Nat) (args : List String) (st : BotState) :
    (set_auto_reply uid args st).1.jobs = st.jobs := by
  unfold set_auto_reply
  split <;> rfl

lemma disable_auto_reply_reminders (uid : Nat) (st : BotState) :
    (disable_auto_reply uid st).1.user_reminders = st.user_reminders := by
  unfold disable_auto_reply
  split <;> rfl

lemma disable_auto_reply_jobs (uid : Nat) (st : BotState) :
    (disable_auto_reply uid st).1.jobs = st.jobs := by
  unfold disable_auto_reply
  split <;> rfl

lemma mem_reminders_dispatch {user_id : Nat} {ev : Event} {now1 now2 : Nat}
    {st : BotState} (hwf : wfEvent ev = true) {u : Nat} {r : Reminder}
    (h : r ∈ (dispatch user_id ev now1 now2 st).1.user_reminders u) :
    r ∈ st.user_reminders u ∨ r.text ≠ "" := by
  cases ev with
  | cmdStart => exact Or.inl h
  | cmdHelp => exact Or.inl h
  | cmdList =>
      simp only [dispatch, list_reminders_fst] at h
      exact Or.inl h
  | cmdAutoreply args =>
      simp only [dispatch, set_auto_reply_reminders] at h
      exact Or.inl h
  | cmdDisableAutoreply =>
      simp only [dispatch, disable_auto_reply_reminders] at h
      exact Or.inl h
  | cmdCancel =>
      simp only [dispatch] at h
      cases hc : st.conv user_id
      case idle =>
        rw [hc] at h
        exact Or.inl (mem_reminders_cancel_reminders h)
      case settingTime =>
        rw [hc] at h
        exact Or.inl h
      case settingText =>
        rw [hc] at h
        exact Or.inl h
  | cmdRemind args =>
      simp only [dispatch] at h
      cases hc : st.conv user_id
      case settingTime =>
        rw [hc] at h
        exact Or.inl h
      case settingText =>
        rw [hc] at h
        exact Or.inl h
      case idle =>
        rw [hc] at h
        rcases mem_reminders_set_reminder h with h | ⟨hlen, htext⟩
        · exact Or.inl h
        · refine Or.inr ?_
          rw [htext]
          have hargs : ∀ a ∈ args, a ≠ "" := by
            simpa [wfEvent, List.all_eq_true] using hwf
          have htail : args.tail ≠ [] := by
            rcases args with _ | ⟨a, t⟩
            · simp at hlen
            · rcases t with _ | ⟨b, t⟩
              · simp at hlen
              · simp
          exact joinSpace_ne_empty args.tail htail
            (fun a ha => hargs a (List.mem_of_mem_tail ha))
  | textMsg text =>
      simp only [dispatch] at h
      cases hc : st.conv user_id
      case idle =>
        rw [hc] at h
        simp only at h
        split at h
        · rw [handle_message_fst] at h
          exact Or.inl h
        · exact Or.inl h
      case settingTime =>
        rw [hc] at h
        simp only at h
        split at h
        · rw [set_reminder_time_reminders] at h
          exact Or.inl h
        · split at h
          · rw [handle_message_fst] at h
            exact Or.inl h
          · exact Or.inl h
      case settingText =>
        rw [hc] at h
        simp only at h
        split at h
        case isTrue htext =>
          rcases mem_reminders_set_reminder_text h with h | h
          · exact Or.inl h
          · exact Or.inr (by rw [h]; exact htext)
        case isFalse =>
          exact Or.inl h

lemma mem_jobs_dispatch {user_id : Nat} {ev : Event} {now1 now2 : Nat}
    {st : BotState} {j : Job}
    (h : j ∈ (dispatch user_id ev now1 now2 st).1.jobs) :
    j ∈ st.jobs ∨ JobWf j := by
  cases ev with
  | cmdStart => exact Or.inl h
  | cmdHelp => exact Or.inl h
  | cmdList =>
      simp only [dispatch, list_reminders_fst] at h
      exact Or.inl h
  | cmdAutoreply args =>
      simp only [dispatch, set_auto_reply_jobs] at h
      exact Or.inl h
  | cmdDisableAutoreply =>
      simp only [dispatch, disable_auto_reply_jobs] at h
      exact Or.inl h
  | cmdCancel =>
      simp only [dispatch] at h
      cases hc : st.conv user_id
      case idle =>
        rw [hc] at h
        exact Or.inl (mem_jobs_cancel_reminders h)
      case settingTime =>
        rw [hc] at h
        exact Or.inl h
      case settingText =>
        rw [hc] at h
        exact Or.inl h
  | cmdRemind args =>
      simp only [dispatch] at h
      cases hc : st.conv user_id
      case settingTime =>
        rw [hc] at h
        exact Or.inl h
      case settingText =>
        rw [hc] at h
        exact Or.inl h
      case idle =>
        rw [hc] at h
        exact mem_jobs_set_reminder h
  | textMsg text =>
      simp only [dispatch] at h
      cases hc : st.conv user_id
      case idle =>
        rw [hc] at h
        simp only at h
        split at h
        · rw [handle_message_fst] at h
          exact Or.inl h
        · exact Or.inl h
      case settingTime =>
        rw [hc] at h
        simp only at h
        split at h
        · rw [set_reminder_time_jobs] at h
          exact Or.inl h
        · split at h
          · rw [handle_message_fst] at h
            exact Or.inl h
          · exact Or.inl h
      case settingText =>
        rw [hc] at h
        simp only at h
        split at h
        · exact mem_jobs_set_reminder_text h
        · exact Or.inl h

/-- In every reachable state, every stored reminder has non-empty text. -/
lemma reachable_reminder_texts {st : BotState} (h : Reachable st) :
    ∀ u r, r ∈ st.user_reminders u → r.text ≠ "" := by
  induction h with
  | init =>
      intro u r hr
      simp [initState] at hr
  | step st0 uid ev n1 n2 _ hwf ih =>
      intro u r hr
      rcases mem_reminders_dispatch hwf hr with hr | hr
      · exact ih u r hr
      · exact hr
  | fireStep st0 j succ _ _ ih =>
      intro u r hr
      exact ih u r
        (@mem_reminders_send_reminder succ j.user_id j.text
          { st0 with jobs := st0.jobs.erase j } u r hr)

/-- In every reachable state, every pending job carries the id the source
built for it: reminder_<user_id>_<run_date>. -/
lemma reachable_jobs_wf {st : BotState} (h : Reachable st) :
    ∀ j ∈ st.jobs, JobWf j := by
  induction h with
  | init =>
      intro j hj
      simp [initState] at hj
  | step st0 uid ev n1 n2 _ _ ih =>
      intro j hj
      rcases mem_jobs_dispatch hj with hj | hj
      · exact ih j hj
      · exact hj
  | fireStep st0 j0 succ _ _ ih =>
      intro j hj
      exact ih j (mem_jobs_fire hj)

/-! Claim C1. -/

/-- Concrete state for C1: user 7 holds one stored reminder and its pending
job. -/
def stC1 : BotState where
  user_reminders := fun u => if u = 7 then [⟨"call john", 300, 0, "5min"⟩] else []
  user_auto_reply := fun _ => none
  jobs := [⟨jobId 7 300, 7, "call john", 300⟩]
  conv := fun _ => ConvState.idle
  reminder_time := fun _ => none

/-- C1 counterexample: the claim asserts the fired entry is removed from the
store in notifier-failure runs as well, but in send_reminder the removal sits
after the awaited send inside the try block, so a failing send skips it.
Firing user 7's job with a failing notifier consumes the job yet leaves the
entry listed. -/
theorem C1_counterexample :
    (fire ⟨jobId 7 300, 7, "call john", 300⟩ false stC1).1.user_reminders 7
        = [⟨"call john", 300, 0, "5min"⟩] ∧
      (fire ⟨jobId 7 300, 7, "call john", 300⟩ false stC1).1.jobs = [] := by
  exact ⟨rfl, by decide⟩

/-- C1 amended: firing consumes the one-shot job either way, and the store
entry is removed (together with every other same-text entry of that user)
exactly when the notifier call succeeds; when it fails the whole store is
left untouched. -/
theorem C1_fire_removal_amended (j : Job) (st : BotState) :
    (fire j true st).1.user_reminders j.user_id
        = (st.user_reminders j.user_id).filter (fun r => r.text != j.text) ∧
      (fire j false st).1.user_reminders = st.user_reminders ∧
      (fire j true st).1.jobs = st.jobs.erase j ∧
      (fire j false st).1.jobs = st.jobs.erase j := by
  refine ⟨?_, rfl, rfl, rfl⟩
  unfold fire send_reminder
  simp [Function.update_same]

/-! Claim C2. -/

/-- Concrete state for C2, first scenario: user 1 is Idle with one stored
reminder and its job. -/
def stC2a : BotState where
  user_reminders := fun u => if u = 1 then [⟨"pay rent", 300, 0, "5min"⟩] else []
  user_auto_reply := fun _ => none
  jobs := [⟨jobId 1 300, 1, "pay rent", 300⟩]
  conv := fun _ => ConvState.idle
  reminder_time := fun _ => none

/-- Concrete state for C2, second scenario: user 2 is in AwaitingText with a
pending delay class stored in user_data. -/
def stC2b : BotState where
  user_reminders := fun _ => []
  user_auto_reply := fun _ => none
  jobs := []
  conv := fun u => if u = 2 then ConvState.settingText else ConvState.idle
  reminder_time := fun u => if u = 2 then some "5min" else none

/-- C2 counterexample: from Idle the /cancel command is claimed by the
cancel_reminders handler, which clears user 1's stored reminders and pending
jobs, so cancel does not leave the Reminder Store untouched in every state;
moreover cancel from AwaitingText ends the session but does not discard the
stored pendingDelayClass value. -/
theorem C2_counterexample :
    (dispatch 1 Event.cmdCancel 0 0 stC2a).1.user_reminders 1 = [] ∧
      stC2a.user_reminders 1 ≠ [] ∧
      (dispatch 1 Event.cmdCancel 0 0 stC2a).1.jobs = [] ∧
      stC2a.jobs ≠ [] ∧
      (dispatch 2 Event.cmdCancel 0 0 stC2b).1.reminder_time 2 = some "5min" ∧
      (dispatch 2 Event.cmdCancel 0 0 stC2b).1.conv 2 = ConvState.idle := by
  refine ⟨?_, ?_, ?_, ?_, ?_, ?_⟩ <;> decide

/-- C2 amended: while a conversation is active (AwaitingDelay or
AwaitingText) the /cancel command runs the conversation fallback, which ends
the session to Idle and changes nothing else (in particular it never touches
the store or the jobs; the pendingDelayClass value is retained in user_data,
though it is never read again); from Idle the same command instead runs
cancel_reminders. -/
theorem C2_cancel_amended (uid now1 now2 : Nat) (st : BotState) :
    (st.conv uid ≠ ConvState.idle →
        dispatch uid Event.cmdCancel now1 now2 st
          = ({ st with conv := Function.update st.conv uid ConvState.idle },
              [Msg.cancelled])) ∧
      (st.conv uid = ConvState.idle →
        dispatch uid Event.cmdCancel now1 now2 st
          = ((cancel_reminders uid st).2.1, (cancel_reminders uid st).2.2)) := by
  constructor
  · intro hne
    unfold dispatch cancel
    cases hc : st.conv uid
    · exact absurd hc hne
    · rfl
    · rfl
  · intro hc
    unfold dispatch
    rw [hc]

/-- C2 witness: user 3 in AwaitingDelay. -/
def stC2w : BotState where
  user_reminders := fun _ => []
  user_auto_reply := fun _ => none
  jobs := []
  conv := fun u => if u = 3 then ConvState.settingTime else ConvState.idle
  reminder_time := fun _ => none

/-- C2 witness: the amended cancel behaviour at a concrete in-conversation
state. -/
theorem C2_cancel_amended_witness :
    dispatch 3 Event.cmdCancel 0 0 stC2w
      = ({ stC2w with conv := Function.update stC2w.conv 3 ConvState.idle },
          [Msg.cancelled]) :=
  (C2_cancel_amended 3 0 0 stC2w).1 (by decide)

/-! Claim C3. -/

/-- C3 counterexample: the token "5MIN" is neither one of the four delay
classes nor one of the short aliases, yet scheduling with it succeeds
(set_reminder lowercases the token first), so rejection does not occur for
every token outside those eight strings. -/
theorem C3_counterexample :
    (dispatch 1 (Event.cmdRemind ["5MIN", "x"]) 0 0 initState).1.user_reminders 1
        = [⟨"x", 300, 0, "5min"⟩] ∧
      (dispatch 1 (Event.cmdRemind ["5MIN", "x"]) 0 0 initState).2
        = [Msg.reminderSet "5min" "x"] ∧
      "5MIN" ∉ (["5min", "10min", "30min", "1h"] : List String) ∧
      "5MIN" ∉ aliasTokens := by
  refine ⟨?_, ?_, ?_, ?_⟩ <;> decide

/-- The local time_choice of set_reminder: the lowercased first argument,
normalized through time_mapping. -/
def time_choiceOf (args : List String) : String :=
  (time_mapping (pyLower (args.headD ""))).getD (pyLower (args.headD ""))

/-- C3 amended: with both arguments supplied, set_reminder rejects exactly
when the lowercased token is neither a delay class nor a short alias, and
the rejection has no side effects (state returned unchanged); for every
token whose lowercasing is recognized it succeeds, appending exactly one
reminder and one job and confirming. -/
theorem C3_schedule_amended (uid : Nat) (args : List String) (now1 now2 : Nat)
    (st : BotState) (h2 : 2 ≤ args.length) :
    (REMINDER_TIMES (pyLower (args.headD "")) = none ∧
        pyLower (args.headD "") ∉ aliasTokens →
      set_reminder uid args now1 now2 st = (st, [Msg.invalidTimeFormat])) ∧
    (¬(REMINDER_TIMES (pyLower (args.headD "")) = none ∧
        pyLower (args.headD "") ∉ aliasTokens) →
      (set_reminder uid args now1 now2 st).1.user_reminders uid
          = st.user_reminders uid
            ++ [⟨joinSpace args.tail, now1 + durationOf (time_choiceOf args),
                  now2, time_choiceOf args⟩] ∧
        (set_reminder uid args now1 now2 st).1.jobs
          = st.jobs
            ++ [⟨jobId uid (now1 + durationOf (time_choiceOf args)), uid,
                  joinSpace args.tail, now1 + durationOf (time_choiceOf args)⟩] ∧
        (set_reminder uid args now1 now2 st).2
          = [Msg.reminderSet (time_choiceOf args) (joinSpace args.tail)]) := by
  constructor
  · intro hinv
    unfold set_reminder
    rw [if_pos h2]
    simp only
    rw [if_pos hinv]
  · intro hval
    unfold set_reminder
    rw [if_pos h2]
    simp only
    rw [if_neg hval]
    exact ⟨Function.update_same _ _ _, rfl, rfl⟩

/-- C3 witness: a concrete unrecognized token is rejected with no side
effects, and a concrete alias is accepted. -/
theorem C3_schedule_amended_witness :
    set_reminder 4 ["zzz", "hello"] 0 0 initState
        = (initState, [Msg.invalidTimeFormat]) ∧
      (set_reminder 4 ["5m", "hi"] 0 0 initState).1.user_reminders 4
        = initState.user_reminders 4
          ++ [⟨joinSpace ["hi"], 0 + durationOf (time_choiceOf ["5m", "hi"]),
                0, time_choiceOf ["5m", "hi"]⟩] :=
  ⟨(C3_schedule_amended 4 ["zzz", "hello"] 0 0 initState (by decide)).1 (by decide),
   ((C3_schedule_amended 4 ["5m", "hi"] 0 0 initState (by decide)).2 (by decide)).1⟩

/-! Claim C4. -/

/-- C4 counterexample: a run in which the clock advances by one second
between the two datetime.now() calls of set_reminder stores a reminder with
time 300 and set_at 1, and 300 is not 1 plus the 5min duration, so
scheduledAt equals createdAt plus duration does not hold exactly. -/
theorem C4_counterexample :
    (dispatch 1 (Event.cmdRemind ["5min", "x"]) 0 1 initState).1.user_reminders 1
        = [⟨"x", 300, 1, "5min"⟩] ∧
      (300 : Nat) ≠ 1 + durationOf "5min" := by
  exact ⟨by decide, by decide⟩

/-- C4 amended: every reminder appended by set_reminder or set_reminder_text
has scheduledAt equal to the first clock reading plus the duration of its
delay class, and createdAt equal to the second reading; when the two clock
readings coincide, scheduledAt equals createdAt plus the duration exactly. -/
theorem C4_scheduledAt_amended (uid : Nat) (args : List String) (text : String)
    (now1 now2 : Nat) (st : BotState) (r : Reminder) :
    (r ∈ (set_reminder uid args now1 now2 st).1.user_reminders uid →
        r ∈ st.user_reminders uid ∨
          (r.time = now1 + durationOf r.duration ∧ r.set_at = now2)) ∧
      (r ∈ (set_reminder_text uid text now1 now2 st).1.user_reminders uid →
        r ∈ st.user_reminders uid ∨
          (r.time = now1 + durationOf r.duration ∧ r.set_at = now2)) ∧
      (now2 = now1 → r.time = now1 + durationOf r.duration → r.set_at = now2 →
        r.time = r.set_at + durationOf r.duration) := by
  refine ⟨?_, ?_, ?_⟩
  · intro h
    unfold set_reminder at h
    split at h
    · simp only at h
      split at h
      · exact Or.inl h
      · rcases mem_update_append h with h | h
        · exact Or.inl h
        · subst h
          exact Or.inr ⟨rfl, rfl⟩
    · exact Or.inl h
  · intro h
    unfold set_reminder_text at h
    simp only at h
    split at h
    · exact Or.inl h
    · rcases mem_update_append h with h | h
      · exact Or.inl h
      · subst h
        exact Or.inr ⟨rfl, rfl⟩
  · intro h1 h2 h3
    rw [h2, h3, h1]

/-- C4 witness: with coinciding clock readings the claimed equality holds at
a concrete scheduled reminder. -/
theorem C4_scheduledAt_amended_witness :
    (⟨"x", 300, 0, "5min"⟩ : Reminder).time
      = (⟨"x", 300, 0, "5min"⟩ : Reminder).set_at + durationOf "5min" := by
  have h := C4_scheduledAt_amended 1 ["5min", "x"] "y" 0 0 initState
    ⟨"x", 300, 0, "5min"⟩
  rcases h.1 (by decide) with hmem | hr
  · exact absurd hmem (by decide)
  · exact h.2.2 rfl hr.1 hr.2

/-! Claim C5. -/

/-- Concrete state for C5: user 5 schedules two reminders with the same text
via the inline command, giving two stored entries and two pending jobs. -/
def stC5 : BotState :=
  (dispatch 5 (Event.cmdRemind ["5min", "x"]) 0 0
    (dispatch 5 (Event.cmdRemind ["10min", "x"]) 0 0 initState).1).1

/-- C5: the 1:1 reminder-job invariant is violated by the code.  In stC5
user 5 has two live reminders and two pending jobs; firing the 5min job
removes BOTH store entries (send_reminder removes by text match) while the
10min job is still pending, leaving an orphaned job with no corresponding
stored reminder. -/
theorem C5_one_to_one_violated :
    stC5.user_reminders 5
        = [⟨"x", 600, 0, "10min"⟩, ⟨"x", 300, 0, "5min"⟩] ∧
      (⟨jobId 5 300, 5, "x", 300⟩ : Job) ∈ stC5.jobs ∧
      (fire ⟨jobId 5 300, 5, "x", 300⟩ true stC5).1.user_reminders 5 = [] ∧
      (fire ⟨jobId 5 300, 5, "x", 300⟩ true stC5).1.jobs
        = [⟨jobId 5 600, 5, "x", 600⟩] := by
  refine ⟨?_, ?_, ?_, ?_⟩ <;> decide

/-! Claim C6. -/

/-- C6: cancel_reminders reports the number of stored reminders it removed
and is idempotent.  With stored reminders it returns their (positive) count,
clears the user's store, leaves no job carrying the user's id prefix, and
displays the count; an immediate second call (and generally any call with no
stored reminders) returns 0, sends only the no-reminder notice, and changes
no state. -/
theorem C6_cancel_idempotent (uid : Nat) (st : BotState) :
    (st.user_reminders uid = [] →
        cancel_reminders uid st = (0, st, [Msg.noneToCancel])) ∧
      (st.user_reminders uid ≠ [] →
        (cancel_reminders uid st).1 = (st.user_reminders uid).length ∧
          0 < (cancel_reminders uid st).1 ∧
          (cancel_reminders uid st).2.1.user_reminders uid = [] ∧
          ((cancel_reminders uid st).2.1.jobs.all
              (fun j => !((jobPrefix uid).isPrefixOf j.id))) = true ∧
          (cancel_reminders uid st).2.2
            = [Msg.allCancelled (st.user_reminders uid).length] ∧
          cancel_reminders uid (cancel_reminders uid st).2.1
            = (0, (cancel_reminders uid st).2.1, [Msg.noneToCancel])) := by
  constructor
  · intro he
    unfold cancel_reminders
    rw [if_pos he]
  · intro hne
    have hstep : cancel_reminders uid st
        = ((st.user_reminders uid).length,
            { st with
                jobs := st.jobs.filter (fun j => !((jobPrefix uid).isPrefixOf j.id)),
                user_reminders := Function.update st.user_reminders uid [] },
            [Msg.allCancelled (st.user_reminders uid).length]) := by
      unfold cancel_reminders
      rw [if_neg hne]
    rw [hstep]
    refine ⟨rfl, List.length_pos.mpr hne, Function.update_same _ _ _, ?_, rfl, ?_⟩
    · rw [List.all_eq_true]
      intro j hj
      exact (List.mem_filter.mp hj).2
    · simp [cancel_reminders, Function.update_same]

/-- Concrete state for the C6 witness: user 3 holds two reminders with their
two jobs. -/
def stC6 : BotState where
  user_reminders := fun u =>
    if u = 3 then [⟨"a", 300, 0, "5min"⟩, ⟨"b", 600, 0, "10min"⟩] else []
  user_auto_reply := fun _ => none
  jobs := [⟨jobId 3 300, 3, "a", 300⟩, ⟨jobId 3 600, 3, "b", 600⟩]
  conv := fun _ => ConvState.idle
  reminder_time := fun _ => none

/-- C6 witness: the idempotence behaviour at a concrete state with two
reminders for user 3 and none for user 9. -/
theorem C6_cancel_idempotent_witness :
    (cancel_reminders 3 stC6).1 = 2 ∧
      (cancel_reminders 3 stC6).2.1.user_reminders 3 = [] ∧
      ((cancel_reminders 3 stC6).2.1.jobs.all
          (fun j => !((jobPrefix 3).isPrefixOf j.id))) = true ∧
      cancel_reminders 3 (cancel_reminders 3 stC6).2.1
        = (0, (cancel_reminders 3 stC6).2.1, [Msg.noneToCancel]) ∧
      cancel_reminders 9 stC6 = (0, stC6, [Msg.noneToCancel]) := by
  have h3 := (C6_cancel_idempotent 3 stC6).2 (by decide)
  have h9 := (C6_cancel_idempotent 9 stC6).1 (by decide)
  exact ⟨h3.1.trans (by decide), h3.2.2.1, h3.2.2.2.1, h3.2.2.2.2.2, h9⟩

/-! Claim C7. -/

/-- Concrete state for C7: user 2 is in AwaitingDelay. -/
def stC7 : BotState where
  user_reminders := fun _ => []
  user_auto_reply := fun _ => none
  jobs := []
  conv := fun u => if u = 2 then ConvState.settingTime else ConvState.idle
  reminder_time := fun _ => none

/-- C7 counterexample: in AwaitingDelay a non-matching input does remain in
the state, but it does not produce the re-prompt: the regex filter of the
state handler rejects it, the update falls through to the plain-text
handler, and the user receives a canned auto-reply instead of the
choose-a-valid-time re-prompt. -/
theorem C7_counterexample :
    dispatch 2 (Event.textMsg "tomorrow") 0 0 stC7 = (stC7, [Msg.autoReplyRandom]) ∧
      stC7.conv 2 = ConvState.settingTime ∧
      Msg.autoReplyRandom ≠ Msg.chooseValidTime := by
  exact ⟨rfl, rfl, by decide⟩

/-- C7 amended: in AwaitingDelay an input equal to one of the four delay
tokens stores it as the pending delay class and moves the session to
AwaitingText with the text prompt; any other input leaves the whole state
unchanged (session kept, no store change) but is answered by the auto-reply
handler rather than a re-prompt. -/
theorem C7_awaiting_delay_amended (uid : Nat) (text : String) (now1 now2 : Nat)
    (st : BotState) (hc : st.conv uid = ConvState.settingTime) :
    (delayRegex text = true →
        dispatch uid (Event.textMsg text) now1 now2 st
          = ({ st with
                reminder_time := Function.update st.reminder_time uid (some text),
                conv := Function.update st.conv uid ConvState.settingText },
              [Msg.sendText])) ∧
      (delayRegex text = false →
        (dispatch uid (Event.textMsg text) now1 now2 st).1 = st) := by
  constructor
  · intro hreg
    have hsome : ¬(REMINDER_TIMES text = none) := by
      unfold delayRegex at hreg
      simp only [Bool.or_eq_true, decide_eq_true_eq] at hreg
      rcases hreg with ((h | h) | h) | h <;> subst h <;> decide
    unfold dispatch
    rw [hc]
    simp only
    rw [if_pos hreg]
    unfold set_reminder_time
    rw [if_neg hsome]
  · intro hreg
    unfold dispatch
    rw [hc]
    simp only
    rw [if_neg (by simp [hreg])]
    split
    · exact handle_message_fst uid st
    · rfl

/-- C7 witness: both amended behaviours at the concrete AwaitingDelay
state. -/
theorem C7_awaiting_delay_amended_witness :
    dispatch 2 (Event.textMsg "10min") 0 0 stC7
        = ({ stC7 with
              reminder_time := Function.update stC7.reminder_time 2 (some "10min"),
              conv := Function.update stC7.conv 2 ConvState.settingText },
            [Msg.sendText]) ∧
      (dispatch 2 (Event.textMsg "hey") 0 0 stC7).1 = stC7 :=
  ⟨(C7_awaiting_delay_amended 2 "10min" 0 0 stC7 (by decide)).1 rfl,
   (C7_awaiting_delay_amended 2 "hey" 0 0 stC7 (by decide)).2 rfl⟩

/-! Claim C8. -/

/-- Concrete state for C8: user 4 is in AwaitingText with a pending delay
class. -/
def stC8 : BotState where
  user_reminders := fun _ => []
  user_auto_reply := fun _ => none
  jobs := []
  conv := fun u => if u = 4 then ConvState.settingText else ConvState.idle
  reminder_time := fun u => if u = 4 then some "5min" else none

/-- C8 counterexample: completing AwaitingText with the empty text stores
nothing, but it is not rejected with a re-prompt: the text filters match no
handler, so the bot sends no reply at all and the state is untouched. -/
theorem C8_counterexample :
    dispatch 4 (Event.textMsg "") 0 0 stC8 = (stC8, []) ∧
      stC8.conv 4 = ConvState.settingText := by
  exact ⟨rfl, rfl⟩

/-- C8 amended: an empty text message matches no handler in any conversation
state, so it is silently ignored (no reply, no state change) rather than
re-prompted; consequently no empty reminder text is ever stored: in every
reachable state every stored reminder has non-empty text. -/
theorem C8_empty_text_amended :
    (∀ (uid now1 now2 : Nat) (st : BotState),
        dispatch uid (Event.textMsg "") now1 now2 st = (st, [])) ∧
      (∀ st : BotState, Reachable st →
        ∀ u r, r ∈ st.user_reminders u → r.text ≠ "") := by
  constructor
  · intro uid n1 n2 st
    unfold dispatch
    cases hc : st.conv uid <;> rfl
  · intro st h
    exact reachable_reminder_texts h

/-- Concrete reachable state for the C8 witness: one reminder scheduled for
user 1 from the initial state. -/
def stC8w : BotState := (dispatch 1 (Event.cmdRemind ["5min", "x"]) 0 0 initState).1

/-- C8 witness: the empty text is ignored at a concrete state, and the
non-empty-text invariant instantiated at a concrete reachable state. -/
theorem C8_empty_text_amended_witness :
    dispatch 9 (Event.textMsg "") 0 0 initState = (initState, []) ∧
      ("x" : String) ≠ "" :=
  ⟨C8_empty_text_amended.1 9 0 0 initState,
   C8_empty_text_amended.2 stC8w
     (Reachable.step initState 1 (Event.cmdRemind ["5min", "x"]) 0 0
       Reachable.init rfl)
     1 ⟨"x", 300, 0, "5min"⟩ (by decide)⟩

/-! Claim C9. -/

/-- Everything user b can observe of the bot state: b's stored reminders,
b's pending jobs, b's conversation state and user_data, and b's auto-reply
configuration. -/
def UserFrame (b : Nat) (st' st : BotState) : Prop :=
  st'.user_reminders b = st.user_reminders b ∧
    st'.jobs.filter (fun j => j.user_id == b)
      = st.jobs.filter (fun j => j.user_id == b) ∧
    st'.conv b = st.conv b ∧
    st'.reminder_time b = st.reminder_time b ∧
    st'.user_auto_reply b = st.user_auto_reply b

lemma userFrame_refl (b : Nat) (st : BotState) : UserFrame b st st :=
  ⟨rfl, rfl, rfl, rfl, rfl⟩

lemma userFrame_set_reminder {a b : Nat} (hab : a ≠ b) (args : List String)
    (n1 n2 : Nat) (st : BotState) :
    UserFrame b (set_reminder a args n1 n2 st).1 st := by
  unfold UserFrame set_reminder
  split
  · simp only
    split
    · exact ⟨rfl, rfl, rfl, rfl, rfl⟩
    · refine ⟨Function.update_noteq (Ne.symm hab) _ _, ?_, rfl, rfl, rfl⟩
      simp only [List.filter_append]
      simp [hab]
  · exact ⟨rfl, rfl, Function.update_noteq (Ne.symm hab) _ _, rfl, rfl⟩

lemma userFrame_set_reminder_text {a b : Nat} (hab : a ≠ b) (text : String)
    (n1 n2 : Nat) (st : BotState) :
    UserFrame b (set_reminder_text a text n1 n2 st).1 st := by
  unfold UserFrame set_reminder_text
  simp only
  split
  · exact ⟨rfl, rfl, Function.update_noteq (Ne.symm hab) _ _, rfl, rfl⟩
  · refine ⟨Function.update_noteq (Ne.symm hab) _ _, ?_,
      Function.update_noteq (Ne.symm hab) _ _, rfl, rfl⟩
    simp only [List.filter_append]
    simp [hab]

lemma userFrame_set_reminder_time {a b : Nat} (hab : a ≠ b) (text : String)
    (st : BotState) :
    UserFrame b (set_reminder_time a text st).1 st := by
  unfold UserFrame set_reminder_time
  split
  · exact ⟨rfl, rfl, rfl, rfl, rfl⟩
  · exact ⟨rfl, rfl, Function.update_noteq (Ne.symm hab) _ _,
      Function.update_noteq (Ne.symm hab) _ _, rfl⟩

lemma userFrame_cancel_reminders {a b : Nat} (hab : a ≠ b) (st : BotState)
    (hwf : ∀ j ∈ st.jobs, JobWf j) :
    UserFrame b (cancel_reminders a st).2.1 st := by
  unfold UserFrame cancel_reminders
  simp only
  split
  · exact ⟨rfl, rfl, rfl, rfl, rfl⟩
  · exact ⟨Function.update_noteq (Ne.symm hab) _ _,
      filter_prefix_user hab st.jobs hwf, rfl, rfl, rfl⟩

lemma userFrame_cancel {a b : Nat} (hab : a ≠ b) (st : BotState) :
    UserFrame b (cancel a st).1 st :=
  ⟨rfl, rfl, Function.update_noteq (Ne.symm hab) _ _, rfl, rfl⟩

lemma userFrame_set_auto_reply {a b : Nat} (hab : a ≠ b) (args : List String)
    (st : BotState) :
    UserFrame b (set_auto_reply a args st).1 st := by
  unfold UserFrame set_auto_reply
  split
  · exact ⟨rfl, rfl, rfl, rfl, Function.update_noteq (Ne.symm hab) _ _⟩
  · exact ⟨rfl, rfl, rfl, rfl, rfl⟩

lemma userFrame_disable_auto_reply {a b : Nat} (hab : a ≠ b) (st : BotState) :
    UserFrame b (disable_auto_reply a st).1 st := by
  unfold UserFrame disable_auto_reply
  split
  · exact ⟨rfl, rfl, rfl, rfl, Function.update_noteq (Ne.symm hab) _ _⟩
  · exact ⟨rfl, rfl, rfl, rfl, rfl⟩

lemma userFrame_fire {a b : Nat} (hab : a ≠ b) (j : Job) (hj : j.user_id = a)
    (success : Bool) (st : BotState) :
    UserFrame b (fire j success st).1 st := by
  have hbne : (j.user_id == b) = false := by simp [hj, hab]
  have hb : b ≠ j.user_id := by rw [hj]; exact Ne.symm hab
  unfold UserFrame fire send_reminder
  split
  · exact ⟨Function.update_noteq hb _ _, filter_erase_of_bne st.jobs j hbne,
      rfl, rfl, rfl⟩
  · exact ⟨rfl, filter_erase_of_bne st.jobs j hbne, rfl, rfl, rfl⟩

/-- C9: user isolation.  If user a is not user b and (as the source always
arranges) every pending job carries the id built from its own user id, then
every update dispatched by a and every firing of one of a's jobs leaves b's
stored reminders, b's pending jobs, b's conversation state, b's user_data
and b's auto-reply configuration unchanged — including the string-prefix
scan of cancel_reminders, whose prefix reminder_<a>_ never matches another
user's job id. -/
theorem C9_user_isolation (a b : Nat) (st : BotState) (hab : a ≠ b)
    (hwf : ∀ j ∈ st.jobs, JobWf j) :
    (∀ (ev : Event) (now1 now2 : Nat),
        UserFrame b (dispatch a ev now1 now2 st).1 st) ∧
      (∀ j ∈ st.jobs, j.user_id = a → ∀ success : Bool,
        UserFrame b (fire j success st).1 st) := by
  constructor
  · intro ev n1 n2
    cases ev with
    | cmdStart => exact userFrame_refl b st
    | cmdHelp => exact userFrame_refl b st
    | cmdList =>
        simp only [dispatch, list_reminders_fst]
        exact userFrame_refl b st
    | cmdAutoreply args => exact userFrame_set_auto_reply hab args st
    | cmdDisableAutoreply => exact userFrame_disable_auto_reply hab st
    | cmdRemind args =>
        simp only [dispatch]
        cases hc : st.conv a
        case idle => exact userFrame_set_reminder hab args n1 n2 st
        case settingTime => exact userFrame_refl b st
        case settingText => exact userFrame_refl b st
    | cmdCancel =>
        simp only [dispatch]
        cases hc : st.conv a
        case idle => exact userFrame_cancel_reminders hab st hwf
        case settingTime => exact userFrame_cancel hab st
        case settingText => exact userFrame_cancel hab st
    | textMsg text =>
        simp only [dispatch]
        cases hc : st.conv a
        case idle =>
            simp only
            split
            · rw [handle_message_fst]
              exact userFrame_refl b st
            · exact userFrame_refl b st
        case settingTime =>
            simp only
            split
            · exact userFrame_set_reminder_time hab text st
            · split
              · rw [handle_message_fst]
                exact userFrame_refl b st
              · exact userFrame_refl b st
        case settingText =>
            simp only
            split
            · exact userFrame_set_reminder_text hab text n1 n2 st
            · exact userFrame_refl b st
  · intro j _ hja success
    exact userFrame_fire hab j hja success st

/-- Concrete state for the C9 witness: users 1 and 2 each hold one reminder
and its job. -/
def stC9 : BotState where
  user_reminders := fun u =>
    if u = 1 then [⟨"a", 300, 0, "5min"⟩]
    else if u = 2 then [⟨"b", 600, 0, "10min"⟩] else []
  user_auto_reply := fun _ => none
  jobs := [⟨jobId 1 300, 1, "a", 300⟩, ⟨jobId 2 600, 2, "b", 600⟩]
  conv := fun _ => ConvState.idle
  reminder_time := fun _ => none

/-- C9 witness: user 1's cancel-all and the firing of user 1's job leave
user 2's view unchanged at a concrete two-user state. -/
theorem C9_user_isolation_witness :
    UserFrame 2 (dispatch 1 Event.cmdCancel 0 0 stC9).1 stC9 ∧
      UserFrame 2 (fire ⟨jobId 1 300, 1, "a", 300⟩ true stC9).1 stC9 := by
  have hwf : ∀ j ∈ stC9.jobs, JobWf j := by
    intro j hj
    simp [stC9] at hj
    rcases hj with h | h <;> subst h <;> rfl
  exact ⟨(C9_user_isolation 1 2 stC9 (by decide) hwf).1 Event.cmdCancel 0 0,
    (C9_user_isolation 1 2 stC9 (by decide) hwf).2 ⟨jobId 1 300, 1, "a", 300⟩
      (by decide) rfl true⟩

/-! Claim C10. -/

/-- C10: invoking /autoreply with an empty argument list replies with the
usage prompt and leaves the whole state — in particular the per-user
auto-reply configuration map — unchanged, so no empty string is stored and
any previously configured custom text is preserved. -/
theorem C10_autoreply_empty_args (uid now1 now2 : Nat) (st : BotState) :
    dispatch uid (Event.cmdAutoreply []) now1 now2 st
        = (st, [Msg.autoReplyUsage]) ∧
      (dispatch uid (Event.cmdAutoreply []) now1 now2 st).1.user_auto_reply
        = st.user_auto_reply := by
  exact ⟨rfl, rfl⟩

end Bot
